import Mathlib

/-
Verification of the point-cloud aggregator
(src/src/nodelets/point_cloud_aggregator.cpp).

Shallow embedding conventions:

* IEEE-754 single-precision values are modelled by the inductive type `F`:
  a finite value carries an exact rational (the claims under examination are
  about which values are routed where, not about rounding), and the
  non-finite values `inf`/`nan` are explicit constructors with the usual
  propagation rules for `+` and `*`.
* A `sensor_msgs::msg::PointCloud2` is modelled by `Cloud`.  The packed byte
  buffer `data` is modelled as a list of `PointRec` records: the byte
  offsets of the C++ code become named slots (`x`, `y`, `z`, `distance`,
  `vp_x`, `vp_y`, `vp_z`); whether the `distance` / viewpoint slots are
  meaningful is governed, exactly as in the C++, by the field table
  (`getFieldIndex`).  All remaining bytes of a record are the opaque `rest`.
* `pcl::PCLPointCloud2` has the same layout as the ROS message, so the
  `toPCL` / `moveFromPCL` conversions are identities in the model and are
  not represented.
* External collaborators (the tf lookup, `rtabmap::Transform`,
  `pcl::concatenatePointCloud`) are not part of this repository; they are
  modelled from the spec where their behaviour matters, see the individual
  doc comments.
-/

namespace RtabmapRos

/-- Model of an IEEE-754 single-precision value: an exact finite rational,
a signed infinity, or not-a-number. -/
inductive F where
  | finite (v : ℚ)
  | inf (neg : Bool)
  | nan
deriving DecidableEq, Repr

/-- `std::isfinite` on the float model. -/
def F.isFinite : F → Bool
  | finite _ => true
  | _ => false

/-- Float multiplication with IEEE non-finite propagation. -/
def F.mul : F → F → F
  | nan, _ => nan
  | _, nan => nan
  | finite a, finite b => finite (a * b)
  | finite a, inf s => if a = 0 then nan else inf (xor (decide (a < 0)) s)
  | inf s, finite a => if a = 0 then nan else inf (xor s (decide (a < 0)))
  | inf s, inf t => inf (xor s t)

/-- Float addition with IEEE non-finite propagation. -/
def F.add : F → F → F
  | nan, _ => nan
  | _, nan => nan
  | finite a, finite b => finite (a + b)
  | finite _, inf s => inf s
  | inf s, finite _ => inf s
  | inf s, inf t => if s = t then inf s else nan

/-- A 4x4 homogeneous transform matrix (`Eigen::Matrix4f`).  Its entries are
ordinary (finite) values, so they are plain rationals. -/
def Mat4 : Type := Fin 4 → Fin 4 → ℚ

/-- The identity transform matrix. -/
def idMat : Mat4 := fun i j => if i = j then 1 else 0

/-- Row `i` of the Eigen matrix-vector product `T * (x, y, z, 1)` computed
in the float model (the homogeneous coordinate w is 1). -/
def matRow (T : Mat4) (i : Fin 4) (x y z : F) : F :=
  F.add (F.add (F.mul (F.finite (T i 0)) x) (F.mul (F.finite (T i 1)) y))
        (F.add (F.mul (F.finite (T i 2)) z) (F.mul (F.finite (T i 3)) (F.finite 1)))

/-- The first three components of the matrix-vector product `T * (x, y, z, 1)`:
exactly what the per-point loop of `transformPointCloud` writes back. -/
def transformXYZ (T : Mat4) (x y z : F) : F × F × F :=
  (matRow T 0 x y z, matRow T 1 x y z, matRow T 2 x y z)

/-- One entry of a `PointCloud2` field table (`sensor_msgs::msg::PointField`). -/
structure Field where
  name : String
  offset : Nat
  datatype : Nat
deriving DecidableEq, Repr

/-- `sensor_msgs::PointField::FLOAT32`. -/
def FLOAT32 : Nat := 7

/-- One packed point record of the `data` buffer.  The slots named here are
the ones the aggregator reads or writes; `rest` stands for all other bytes
of the record, which the code only ever copies verbatim. -/
structure PointRec where
  x : F
  y : F
  z : F
  distance : F
  vp_x : F
  vp_y : F
  vp_z : F
  rest : List Nat
deriving DecidableEq, Repr

/-- Model of `sensor_msgs::msg::PointCloud2` (and of `pcl::PCLPointCloud2`,
which has the same layout).  The header's stamp is modelled as one integer,
the byte buffer `data` as the list `points` (see the file header). -/
structure Cloud where
  stamp : Int
  frame_id : String
  height : Nat
  width : Nat
  fields : List Field
  is_dense : Bool
  points : List PointRec
deriving DecidableEq, Repr

/-- `pcl::getFieldIndex`: index of the first field with the given name,
`-1` when absent. -/
def getFieldIndex (c : Cloud) (name : String) : Int :=
  match c.fields.findIdx? (fun f => f.name == name) with
  | some i => Int.ofNat i
  | none => -1

/-- The datatype stored at a (valid) index of the field table. -/
def fieldDatatype (c : Cloud) (i : Int) : Nat :=
  match c.fields.get? i.toNat with
  | some f => f.datatype
  | none => 0

/-- The validation performed at lines 46-63 of `transformPointCloud`:
x, y, z must all be present and all be FLOAT32. -/
def xyzValid (c : Cloud) : Bool :=
  !(getFieldIndex c "x" == -1 || getFieldIndex c "y" == -1 || getFieldIndex c "z" == -1)
  && !(fieldDatatype c (getFieldIndex c "x") != FLOAT32
       || fieldDatatype c (getFieldIndex c "y") != FLOAT32
       || fieldDatatype c (getFieldIndex c "z") != FLOAT32)

/-- Whether the cloud carries a `distance` field (line 66). -/
def hasDistance (c : Cloud) : Bool := getFieldIndex c "distance" != -1

/-- Whether the cloud carries a viewpoint field group (line 129, keyed on
`vp_x` exactly as in the code). -/
def hasVp (c : Cloud) : Bool := getFieldIndex c "vp_x" != -1

/-- The body of the per-point loop (lines 86-126): finite points are
transformed; a non-finite point with a usable `distance` is treated as a
max-range point (x is replaced by the distance, the transformed x is saved
back into `distance` and the output x becomes NaN); any other non-finite
point is written back unchanged. -/
def transformPointRec (T : Mat4) (hasDist : Bool) (p : PointRec) : PointRec :=
  if p.x.isFinite && p.y.isFinite && p.z.isFinite then
    { p with x := (transformXYZ T p.x p.y p.z).1
           , y := (transformXYZ T p.x p.y p.z).2.1
           , z := (transformXYZ T p.x p.y p.z).2.2 }
  else if hasDist && p.distance.isFinite then
    { p with x := F.nan
           , y := (transformXYZ T p.distance p.y p.z).2.1
           , z := (transformXYZ T p.distance p.y p.z).2.2
           , distance := (transformXYZ T p.distance p.y p.z).1 }
  else
    p

/-- The body of the viewpoint loop (lines 133-143): the viewpoint vector of
every record is transformed, with no finiteness check. -/
def transformVp (T : Mat4) (p : PointRec) : PointRec :=
  { p with vp_x := (transformXYZ T p.vp_x p.vp_y p.vp_z).1
         , vp_y := (transformXYZ T p.vp_x p.vp_y p.vp_z).2.1
         , vp_z := (transformXYZ T p.vp_x p.vp_y p.vp_z).2.2 }

/-- `pcl_ros::transformPointCloud` (lines 40-145).  `none` models the early
`return` after a failed x-y-z validation (the output message is then left
untouched by this function).  Both loops run over the first
`width * height` records, exactly as in the code. -/
def transformPointCloud (T : Mat4) (c : Cloud) : Option Cloud :=
  if xyzValid c then
    let n := c.width * c.height
    let pts1 := (c.points.take n).map (transformPointRec T (hasDistance c)) ++ c.points.drop n
    let pts2 := if hasVp c then (pts1.take n).map (transformVp T) ++ pts1.drop n else pts1
    some { c with points := pts2 }
  else
    none

/-- A default-constructed `sensor_msgs::msg::PointCloud2` (all fields
zero-initialized). -/
def emptyCloud : Cloud :=
  { stamp := 0, frame_id := "", height := 0, width := 0, fields := [],
    is_dense := false, points := [] }

/-- The calling convention of every `transformPointCloud` call site in
`combineClouds`: the output message is default-constructed, so a failed
transform leaves it as the empty cloud. -/
def transformPointCloudOrEmpty (T : Mat4) (c : Cloud) : Cloud :=
  match transformPointCloud T c with
  | some c2 => c2
  | none => emptyCloud

/-- The trace of indices with which `transformPointCloud` subscripts the
field table `in.fields`, in program order: the datatype checks of
lines 57-59 (with C++ short-circuiting), the offset reads of line 84,
the unconditional `in.fields[dist_idx].offset` of line 92 once per loop
iteration, and the viewpoint offset reads of line 135. -/
def fieldTableAccesses (c : Cloud) : List Int :=
  let x_idx := getFieldIndex c "x"
  let y_idx := getFieldIndex c "y"
  let z_idx := getFieldIndex c "z"
  if x_idx == -1 || y_idx == -1 || z_idx == -1 then []
  else
    let dtChecks :=
      [x_idx] ++ (if fieldDatatype c x_idx == FLOAT32 then
        [y_idx] ++ (if fieldDatatype c y_idx == FLOAT32 then [z_idx] else [])
      else [])
    if !(xyzValid c) then dtChecks
    else
      let dist_idx := getFieldIndex c "distance"
      let vp_idx := getFieldIndex c "vp_x"
      let n := c.width * c.height
      dtChecks ++ [x_idx, y_idx, z_idx]
        ++ List.replicate n dist_idx
        ++ (if vp_idx != -1 then List.replicate n vp_idx else [])

/-- The two parameters of the aggregator node that `combineClouds` reads:
`frame_id` (the configured reference frame, empty = use source 0's frame)
and `fixed_frame_id` (empty = temporal-drift compensation disabled). -/
structure Config where
  frameId : String
  fixedFrameId : String

/-- Modelled from the spec: `rtabmap::Transform` and its `toEigen4f` are
external library code, not in this repository.  A transform is `Option
Mat4`, with `none` the null-transform sentinel (`isNull`); per the spec's
data model (RigidTransform, section 3) the null sentinel is represented as
the identity when a 4x4 matrix is extracted from it. -/
def toEigen4f : Option Mat4 → Mat4
  | some m => m
  | none => idMat

/-- Modelled from the spec: `pcl::concatenatePointCloud` is external
library code.  Per section 4.5 it requires an identical field layout and
fails on a mismatch — at the call site (line 394) the ignored failure
leaves the default-constructed output, modelled as `emptyCloud`; an empty
input passes the other cloud through; otherwise the records are appended,
`height` becomes 1, `width` the total point count and `is_dense` the
conjunction of the inputs' flags. -/
def concatenatePointCloud (c1 c2 : Cloud) : Cloud :=
  if c1.width * c1.height == 0 && c2.width * c2.height != 0 then c2
  else if c1.width * c1.height != 0 && c2.width * c2.height == 0 then c1
  else if c1.fields.map Field.name == c2.fields.map Field.name then
    { c1 with height := 1
            , width := c1.width * c1.height + c2.width * c2.height
            , is_dense := c1.is_dense && c2.is_dense
            , points := c1.points ++ c2.points }
  else emptyCloud

/-- The body of the per-source loop of `combineClouds` (lines 343-396) for
one non-reference source `ci`.  `tf1` is the one-timestamp transform
lookup, `tf2` the two-timestamp (temporal-drift) lookup; both return
`none` for the null transform.  The drift displacement is looked up only
when a fixed frame is configured and the stamps differ (lines 347-359);
if the source's frame differs from the resolved reference frame its
lookup result is converted and applied with no null check (lines 362-366);
a non-null displacement is applied afterwards (lines 367-390). -/
def processCloud (tf1 : String → String → Int → Option Mat4)
    (tf2 : String → String → Int → Int → Option Mat4)
    (fixedFrameId frameId : String) (stamp0 : Int) (ci : Cloud) : Cloud :=
  let cloudDisplacement : Option Mat4 :=
    if fixedFrameId ≠ "" ∧ stamp0 ≠ ci.stamp then
      tf2 frameId fixedFrameId ci.stamp stamp0
    else none
  if frameId ≠ ci.frame_id then
    let tmp := transformPointCloudOrEmpty (toEigen4f (tf1 frameId ci.frame_id ci.stamp)) ci
    match cloudDisplacement with
    | some d => transformPointCloudOrEmpty d tmp
    | none => tmp
  else
    match cloudDisplacement with
    | some d => transformPointCloudOrEmpty d ci
    | none => ci

/-- The tail of `combineClouds` after the source-0 step succeeded
(lines 343-402): fold the per-source processing and concatenation over the
remaining sources, then stamp the result with source 0's timestamp and the
resolved frame id (lines 398-401). -/
def finishCombine (cfg : Config) (tf1 : String → String → Int → Option Mat4)
    (tf2 : String → String → Int → Int → Option Mat4)
    (frameId : String) (c0 : Cloud) (output0 : Cloud) (rest : List Cloud) : Cloud :=
  let fused := rest.foldl
    (fun acc ci => concatenatePointCloud acc
      (processCloud tf1 tf2 cfg.fixedFrameId frameId c0.stamp ci)) output0
  { fused with stamp := c0.stamp, frame_id := frameId }

/-- `PointCloudAggregator::combineClouds` (lines 317-404) on a tuple
`c0 :: rest`.  `subCount` is the publisher's subscription count: when it is
zero nothing at all is done (line 321).  When a reference frame is
configured and differs from source 0's frame, a null transform lookup for
source 0 aborts the tuple (lines 326-333); otherwise source 0 anchors the
resolved frame id.  The result is the published message, `none` when
nothing is published. -/
def combineClouds (cfg : Config) (tf1 : String → String → Int → Option Mat4)
    (tf2 : String → String → Int → Int → Option Mat4)
    (subCount : Nat) (c0 : Cloud) (rest : List Cloud) : Option Cloud :=
  if subCount = 0 then none
  else if cfg.frameId ≠ "" ∧ cfg.frameId ≠ c0.frame_id then
    match tf1 cfg.frameId c0.frame_id c0.stamp with
    | none => none
    | some m =>
        some (finishCombine cfg tf1 tf2 cfg.frameId c0
          (transformPointCloudOrEmpty m c0) rest)
  else
    some (finishCombine cfg tf1 tf2 c0.frame_id c0 c0 rest)

theorem take_all {α : Type} (l : List α) (n : Nat) (h : l.length = n) : l.take n = l := by
  subst h; exact List.take_length l

theorem drop_all {α : Type} (l : List α) (n : Nat) (h : l.length = n) : l.drop n = [] := by
  subst h; exact List.drop_length l

/-- On a cloud satisfying the documented buffer invariant
(`points.length = width * height`), both loops of `transformPointCloud`
range over the whole record list, so the function is a map. -/
theorem transformPointCloud_eq (T : Mat4) (c : Cloud)
    (hv : xyzValid c = true) (hlen : c.points.length = c.width * c.height) :
    transformPointCloud T c = some { c with points :=
      (if hasVp c then
        (c.points.map (transformPointRec T (hasDistance c))).map (transformVp T)
      else c.points.map (transformPointRec T (hasDistance c))) } := by
  have hlen2 : (c.points.map (transformPointRec T (hasDistance c))).length
      = c.width * c.height := by
    rw [List.length_map]; exact hlen
  unfold transformPointCloud
  rw [hv]
  simp only [if_true]
  rw [take_all c.points _ hlen, drop_all c.points _ hlen, List.append_nil]
  rw [take_all _ _ hlen2, drop_all _ _ hlen2, List.append_nil]

/-- The record the transform produces at index `i`, on an invariant-satisfying
valid cloud: the per-point branch result, then the viewpoint pass if the
cloud has one. -/
theorem transformPointCloud_getElem (T : Mat4) (c : Cloud) (i : Nat) (p : PointRec)
    (hv : xyzValid c = true) (hlen : c.points.length = c.width * c.height)
    (hp : c.points[i]? = some p) :
    ((transformPointCloud T c).bind fun c2 => c2.points[i]?)
      = some (if hasVp c then transformVp T (transformPointRec T (hasDistance c) p)
              else transformPointRec T (hasDistance c) p) := by
  rw [transformPointCloud_eq T c hv hlen]
  by_cases h : hasVp c = true
  · simp [h, List.getElem?_map, hp]
  · simp [h, List.getElem?_map, hp]

/-- Claim C1: for every input buffer whose point at index `i` has finite
x, y, z (read as 32-bit floats), `applyTransform` writes back to that
record's x/y/z the first three components of the matrix-vector product
`T * (x, y, z, 1)`, for every 4x4 transform `T`. -/
theorem C1_finitePointTransform (T : Mat4) (c : Cloud) (i : Nat) (p : PointRec)
    (hv : xyzValid c = true) (hlen : c.points.length = c.width * c.height)
    (hp : c.points[i]? = some p)
    (hx : p.x.isFinite = true) (hy : p.y.isFinite = true) (hz : p.z.isFinite = true) :
    (((transformPointCloud T c).bind fun c2 => c2.points[i]?).map
        fun q => (q.x, q.y, q.z)) = some (transformXYZ T p.x p.y p.z) := by
  rw [transformPointCloud_getElem T c i p hv hlen hp]
  by_cases h : hasVp c = true <;>
    simp [h, transformPointRec, transformVp, transformXYZ, hx, hy, hz]

def c1T : Mat4 := fun i j => if i = j then 1 else if i = 0 ∧ j = 3 then 10 else 0

def c1p : PointRec :=
  { x := F.finite 1, y := F.finite 2, z := F.finite 3, distance := F.nan,
    vp_x := F.finite 0, vp_y := F.finite 0, vp_z := F.finite 0, rest := [] }

def c1cloud : Cloud :=
  { stamp := 0, frame_id := "lidar", height := 1, width := 1,
    fields := [⟨"x", 0, 7⟩, ⟨"y", 4, 7⟩, ⟨"z", 8, 7⟩],
    is_dense := true, points := [c1p] }

theorem C1_finitePointTransform_witness :
    (((transformPointCloud c1T c1cloud).bind fun c2 => c2.points[0]?).map
        fun q => (q.x, q.y, q.z)) = some (transformXYZ c1T c1p.x c1p.y c1p.z) :=
  C1_finitePointTransform c1T c1cloud 0 c1p (by decide) (by decide) (by decide)
    (by decide) (by decide) (by decide)

/-- Claim C2: for every point whose x, y or z is non-finite but whose
distance field is present and finite (a max-range point), `applyTransform`
produces a record whose x is NaN and whose distance equals the x-component
of `T * (d, y, z, 1)` where `d` is the input distance; y and z of the
record hold the remaining transformed components. -/
theorem C2_maxRangePointTransform (T : Mat4) (c : Cloud) (i : Nat) (p : PointRec)
    (hv : xyzValid c = true) (hlen : c.points.length = c.width * c.height)
    (hp : c.points[i]? = some p)
    (hnf : (p.x.isFinite && p.y.isFinite && p.z.isFinite) = false)
    (hd : hasDistance c = true) (hdf : p.distance.isFinite = true) :
    (((transformPointCloud T c).bind fun c2 => c2.points[i]?).map
        fun q => (q.x, q.distance, q.y, q.z))
      = some (F.nan, (transformXYZ T p.distance p.y p.z).1,
              (transformXYZ T p.distance p.y p.z).2.1,
              (transformXYZ T p.distance p.y p.z).2.2) := by
  rw [transformPointCloud_getElem T c i p hv hlen hp]
  by_cases h : hasVp c = true <;>
    simp [h, transformPointRec, transformVp, hnf, hd, hdf]

def c2T : Mat4 := fun i j => if i = j then 1 else if i = 0 ∧ j = 3 then 2 else 0

def c2p : PointRec :=
  { x := F.nan, y := F.finite 0, z := F.finite 0, distance := F.finite 5,
    vp_x := F.finite 0, vp_y := F.finite 0, vp_z := F.finite 0, rest := [] }

def c2cloud : Cloud :=
  { stamp := 0, frame_id := "lidar", height := 1, width := 1,
    fields := [⟨"x", 0, 7⟩, ⟨"y", 4, 7⟩, ⟨"z", 8, 7⟩, ⟨"distance", 12, 7⟩],
    is_dense := false, points := [c2p] }

theorem C2_maxRangePointTransform_witness :
    (((transformPointCloud c2T c2cloud).bind fun c2 => c2.points[0]?).map
        fun q => (q.x, q.distance, q.y, q.z))
      = some (F.nan, (transformXYZ c2T c2p.distance c2p.y c2p.z).1,
              (transformXYZ c2T c2p.distance c2p.y c2p.z).2.1,
              (transformXYZ c2T c2p.distance c2p.y c2p.z).2.2) :=
  C2_maxRangePointTransform c2T c2cloud 0 c2p (by decide) (by decide) (by decide)
    (by decide) (by decide) (by decide)

def c3T : Mat4 := fun i j => if i = j then 1 else if i = 0 ∧ j = 3 then 1 else 0

def c3p : PointRec :=
  { x := F.nan, y := F.finite 0, z := F.finite 0, distance := F.nan,
    vp_x := F.finite 0, vp_y := F.finite 0, vp_z := F.finite 0, rest := [] }

def c3cloud : Cloud :=
  { stamp := 0, frame_id := "lidar", height := 1, width := 1,
    fields := [⟨"x", 0, 7⟩, ⟨"y", 4, 7⟩, ⟨"z", 8, 7⟩, ⟨"vp_x", 12, 7⟩],
    is_dense := false, points := [c3p] }

/-- Claim C3, counterexample: on a buffer that carries a viewpoint field
group, a fully-invalid point (non-finite x, no usable distance) is NOT
passed through identically: the second pass of `transformPointCloud`
transforms its viewpoint components, so the produced record differs from
the input record. -/
theorem C3_invalidPointCounterexample :
    c3p.x.isFinite = false ∧ hasDistance c3cloud = false ∧
    c3cloud.points[0]? = some c3p ∧
    ((transformPointCloud c3T c3cloud).bind fun c2 => c2.points[0]?) ≠ some c3p := by
  refine ⟨by decide, by decide, by decide, ?_⟩
  rw [transformPointCloud_getElem c3T c3cloud 0 c3p (by decide) (by decide) (by decide)]
  have hvp : hasVp c3cloud = true := by decide
  have hd : hasDistance c3cloud = false := by decide
  simp [hvp, hd, transformPointRec, transformVp, transformXYZ, matRow,
    F.mul, F.add, F.isFinite, c3T, c3p, Fin.ext_iff]

/-- Claim C3, amended: for every point whose x, y or z is non-finite and
whose distance field is absent or non-finite, and whose buffer carries no
viewpoint field group, the record produced by `applyTransform` is
identical to the input record, for every transform `T`. -/
theorem C3_invalidPointUnchangedAmended (T : Mat4) (c : Cloud) (i : Nat) (p : PointRec)
    (hv : xyzValid c = true) (hlen : c.points.length = c.width * c.height)
    (hp : c.points[i]? = some p)
    (hnf : (p.x.isFinite && p.y.isFinite && p.z.isFinite) = false)
    (hd : hasDistance c = false ∨ p.distance.isFinite = false)
    (hvp : hasVp c = false) :
    ((transformPointCloud T c).bind fun c2 => c2.points[i]?) = some p := by
  rw [transformPointCloud_getElem T c i p hv hlen hp]
  rcases hd with hd | hd <;> simp [hvp, transformPointRec, hnf, hd]

def c3cloudNoVp : Cloud :=
  { stamp := 0, frame_id := "lidar", height := 1, width := 1,
    fields := [⟨"x", 0, 7⟩, ⟨"y", 4, 7⟩, ⟨"z", 8, 7⟩],
    is_dense := false, points := [c3p] }

theorem C3_invalidPointUnchangedAmended_witness :
    ((transformPointCloud c3T c3cloudNoVp).bind fun c2 => c2.points[0]?) = some c3p :=
  C3_invalidPointUnchangedAmended c3T c3cloudNoVp 0 c3p (by decide) (by decide)
    (by decide) (by decide) (Or.inl (by decide)) (by decide)

def c4cfg : Config := ⟨"map", ""⟩

def c4c0 : Cloud :=
  { stamp := 3, frame_id := "base", height := 1, width := 1,
    fields := [⟨"y", 4, 7⟩, ⟨"z", 8, 7⟩], is_dense := true,
    points := [{ x := F.finite 1, y := F.finite 1, z := F.finite 1, distance := F.nan,
                 vp_x := F.nan, vp_y := F.nan, vp_z := F.nan, rest := [] }] }

def c4c1 : Cloud :=
  { stamp := 3, frame_id := "map", height := 1, width := 1,
    fields := [⟨"x", 0, 7⟩, ⟨"y", 4, 7⟩, ⟨"z", 8, 7⟩], is_dense := true,
    points := [{ x := F.finite 2, y := F.finite 0, z := F.finite 0, distance := F.nan,
                 vp_x := F.nan, vp_y := F.nan, vp_z := F.nan, rest := [] }] }

/-- Claim C4, counterexample: a buffer with no `x` field makes its
transform step abort, but the failure is NOT propagated upward: at this
concrete input the tuple containing that buffer still produces a fused
output (`combineClouds` still publishes). -/
theorem C4_missingFieldCounterexample :
    xyzValid c4c0 = false ∧
    transformPointCloud idMat c4c0 = none ∧
    (combineClouds c4cfg (fun _ _ _ => some idMat) (fun _ _ _ _ => none)
        1 c4c0 [c4c1]).isSome = true := by
  decide

/-- Claim C4, amended: if any of x, y, z is absent or not 32-bit float,
the transform step aborts for that buffer with no partial transform, but
the failure is silent rather than propagated: `combineClouds` carries on
with the default-empty buffer for that source and still emits a fused
output for the tuple. -/
theorem C4_missingFieldAmended (cfg : Config)
    (tf1 : String → String → Int → Option Mat4)
    (tf2 : String → String → Int → Int → Option Mat4)
    (n : Nat) (c0 : Cloud) (rest : List Cloud) (m : Mat4)
    (hn : n ≠ 0)
    (h1 : cfg.frameId ≠ "") (h2 : cfg.frameId ≠ c0.frame_id)
    (htf : tf1 cfg.frameId c0.frame_id c0.stamp = some m)
    (hbad : xyzValid c0 = false) :
    transformPointCloud m c0 = none
    ∧ combineClouds cfg tf1 tf2 n c0 rest
        = some (finishCombine cfg tf1 tf2 cfg.frameId c0 emptyCloud rest) := by
  constructor
  · simp [transformPointCloud, hbad]
  · simp [combineClouds, hn, h1, h2, htf, transformPointCloudOrEmpty,
      transformPointCloud, hbad]

theorem C4_missingFieldAmended_witness :
    transformPointCloud idMat c4c0 = none
    ∧ combineClouds c4cfg (fun _ _ _ => some idMat) (fun _ _ _ _ => none) 1 c4c0 [c4c1]
        = some (finishCombine c4cfg (fun _ _ _ => some idMat) (fun _ _ _ _ => none)
            c4cfg.frameId c4c0 emptyCloud [c4c1]) :=
  C4_missingFieldAmended c4cfg (fun _ _ _ => some idMat) (fun _ _ _ _ => none)
    1 c4c0 [c4c1] idMat (by decide) (by decide) (by decide) rfl (by decide)

/-- Claim C5: when a reference frame is configured, differs from source 0's
frame, and the transform lookup for source 0 returns the null transform,
`combineClouds` produces no fused output for that tuple and returns
without publishing. -/
theorem C5_refLookupFailureNoOutput (cfg : Config)
    (tf1 : String → String → Int → Option Mat4)
    (tf2 : String → String → Int → Int → Option Mat4)
    (n : Nat) (c0 : Cloud) (rest : List Cloud)
    (h1 : cfg.frameId ≠ "") (h2 : cfg.frameId ≠ c0.frame_id)
    (h3 : tf1 cfg.frameId c0.frame_id c0.stamp = none) :
    combineClouds cfg tf1 tf2 n c0 rest = none := by
  unfold combineClouds
  by_cases hn : n = 0
  · simp [hn]
  · simp [hn, h1, h2, h3]

def c5c0 : Cloud := { emptyCloud with frame_id := "base" }

theorem C5_refLookupFailureNoOutput_witness :
    combineClouds ⟨"map", ""⟩ (fun _ _ _ => none) (fun _ _ _ _ => none)
      1 c5c0 [] = none :=
  C5_refLookupFailureNoOutput ⟨"map", ""⟩ (fun _ _ _ => none) (fun _ _ _ _ => none)
    1 c5c0 [] (by decide) (by decide) rfl

/-- Claim C6: for a non-reference source whose timestamp differs from
source 0's while a fixed frame is configured, a null temporal-drift lookup
makes the drift compensation a no-op for that source: the source's buffer
still receives its frame transform if needed, and the tuple is not
aborted (the fused output is still produced). -/
theorem C6_driftLookupFailureDegrades (cfg : Config)
    (tf1 : String → String → Int → Option Mat4)
    (tf2 : String → String → Int → Int → Option Mat4)
    (n : Nat) (c0 ci : Cloud) (rest : List Cloud)
    (hcfg0 : cfg.frameId = "")
    (hfix : cfg.fixedFrameId ≠ "")
    (hst : c0.stamp ≠ ci.stamp)
    (hnull : tf2 c0.frame_id cfg.fixedFrameId ci.stamp c0.stamp = none)
    (hn : n ≠ 0) :
    processCloud tf1 tf2 cfg.fixedFrameId c0.frame_id c0.stamp ci
      = (if c0.frame_id ≠ ci.frame_id
         then transformPointCloudOrEmpty
                (toEigen4f (tf1 c0.frame_id ci.frame_id ci.stamp)) ci
         else ci)
    ∧ (combineClouds cfg tf1 tf2 n c0 (ci :: rest)).isSome = true := by
  constructor
  · simp [processCloud, hfix, hst, hnull]
  · simp [combineClouds, hn, hcfg0]

def c6c0 : Cloud := { emptyCloud with frame_id := "base", stamp := 0 }

def c6ci : Cloud := { emptyCloud with frame_id := "base", stamp := 1 }

theorem C6_driftLookupFailureDegrades_witness :
    processCloud (fun _ _ _ => none) (fun _ _ _ _ => none)
        (Config.fixedFrameId ⟨"", "odom"⟩) c6c0.frame_id c6c0.stamp c6ci
      = (if c6c0.frame_id ≠ c6ci.frame_id
         then transformPointCloudOrEmpty
                (toEigen4f ((fun _ _ _ => none) c6c0.frame_id c6ci.frame_id c6ci.stamp)) c6ci
         else c6ci)
    ∧ (combineClouds ⟨"", "odom"⟩ (fun _ _ _ => none) (fun _ _ _ _ => none)
        1 c6c0 (c6ci :: [])).isSome = true :=
  C6_driftLookupFailureDegrades ⟨"", "odom"⟩ (fun _ _ _ => none) (fun _ _ _ _ => none)
    1 c6c0 c6ci [] rfl (by decide) (by decide) rfl (by decide)

/-- Claim C7: with zero interested consumers on the publish sink,
`combineClouds` produces nothing at all on the output path; an output can
only exist when the consumer count is nonzero. -/
theorem C7_zeroSubscribersNoOutput (cfg : Config)
    (tf1 : String → String → Int → Option Mat4)
    (tf2 : String → String → Int → Int → Option Mat4)
    (c0 : Cloud) (rest : List Cloud) :
    combineClouds cfg tf1 tf2 0 c0 rest = none := by
  unfold combineClouds
  simp

def c8cfg : Config := ⟨"map", ""⟩

def c8c0 : Cloud :=
  { stamp := 5, frame_id := "base", height := 0, width := 0,
    fields := [⟨"x", 0, 7⟩, ⟨"y", 4, 7⟩, ⟨"z", 8, 7⟩],
    is_dense := true, points := [] }

def c8c1 : Cloud :=
  { stamp := 5, frame_id := "map", height := 0, width := 0,
    fields := [⟨"x", 0, 7⟩, ⟨"y", 4, 7⟩, ⟨"z", 8, 7⟩],
    is_dense := true, points := [] }

/-- Claim C8, counterexample: with a configured reference frame that
differs from source 0's frame, the published output's frame id is the
reference frame, not source 0's frame id. -/
theorem C8_headerCounterexample :
    (combineClouds c8cfg (fun _ _ _ => some idMat) (fun _ _ _ _ => none)
        1 c8c0 [c8c1]).isSome = true ∧
    (combineClouds c8cfg (fun _ _ _ => some idMat) (fun _ _ _ _ => none)
        1 c8c0 [c8c1]).map Cloud.frame_id ≠ some c8c0.frame_id := by
  decide

/-- Claim C8, amended: every published fused output carries source 0's
timestamp, and its frame id is the resolved reference frame: the
configured frame id when that is nonempty and differs from source 0's
frame, otherwise source 0's frame id. -/
theorem C8_headerAmended (cfg : Config)
    (tf1 : String → String → Int → Option Mat4)
    (tf2 : String → String → Int → Int → Option Mat4)
    (n : Nat) (c0 : Cloud) (rest : List Cloud) (out : Cloud)
    (h : combineClouds cfg tf1 tf2 n c0 rest = some out) :
    out.stamp = c0.stamp ∧
    out.frame_id = (if cfg.frameId ≠ "" ∧ cfg.frameId ≠ c0.frame_id
                    then cfg.frameId else c0.frame_id) := by
  unfold combineClouds at h
  by_cases hn : n = 0
  · simp [hn] at h
  · rw [if_neg hn] at h
    by_cases hf : cfg.frameId ≠ "" ∧ cfg.frameId ≠ c0.frame_id
    · rw [if_pos hf] at h
      rcases htf : tf1 cfg.frameId c0.frame_id c0.stamp with _ | m
      · rw [htf] at h
        cases h
      · rw [htf] at h
        simp only [Option.some.injEq] at h
        subst h
        simp [finishCombine, hf]
    · rw [if_neg hf] at h
      simp only [Option.some.injEq] at h
      subst h
      simp [finishCombine, hf]

theorem C8_headerAmended_witness :
    c8c0.stamp = c8c0.stamp ∧
    c8c0.frame_id = (if Config.frameId ⟨"", ""⟩ ≠ "" ∧ Config.frameId ⟨"", ""⟩ ≠ c8c0.frame_id
                     then Config.frameId ⟨"", ""⟩ else c8c0.frame_id) :=
  C8_headerAmended ⟨"", ""⟩ (fun _ _ _ => none) (fun _ _ _ _ => none)
    1 c8c0 [] c8c0 (by decide)

def c9cloud : Cloud :=
  { stamp := 0, frame_id := "lidar", height := 1, width := 1,
    fields := [⟨"x", 0, 7⟩, ⟨"y", 4, 7⟩, ⟨"z", 8, 7⟩],
    is_dense := true,
    points := [{ x := F.finite 1, y := F.finite 2, z := F.finite 3, distance := F.nan,
                 vp_x := F.nan, vp_y := F.nan, vp_z := F.nan, rest := [] }] }

/-- Claim C9: on a buffer with 32-bit-float x, y, z fields but no
`distance` field and at least one point, the per-point loop subscripts the
field table at index -1 (line 92 computes `in.fields[dist_idx].offset`
before the `dist_idx < 0` guard), which is not a valid index: the claimed
safety property fails on the code. -/
theorem C9_fieldTableOutOfBounds :
    xyzValid c9cloud = true ∧ hasDistance c9cloud = false ∧
    0 < c9cloud.width * c9cloud.height ∧
    (-1 : Int) ∈ fieldTableAccesses c9cloud ∧
    ¬ (0 ≤ (-1 : Int) ∧ (-1 : Int).toNat < c9cloud.fields.length) := by
  decide

/-- Claim C10: for a non-reference source whose frame differs from the
reference frame, the result of the frame-transform lookup is applied to
the source's buffer with no null check: even when the lookup returns the
null sentinel, the converted null transform is applied to the buffer and
the tuple is still fused rather than cancelled. -/
theorem C10_nonRefNullTransformApplied (cfg : Config)
    (tf1 : String → String → Int → Option Mat4)
    (tf2 : String → String → Int → Int → Option Mat4)
    (n : Nat) (c0 ci : Cloud) (rest : List Cloud)
    (hcfg0 : cfg.frameId = "")
    (hfix : cfg.fixedFrameId = "")
    (hdiff : c0.frame_id ≠ ci.frame_id)
    (hnull : tf1 c0.frame_id ci.frame_id ci.stamp = none)
    (hn : n ≠ 0) :
    processCloud tf1 tf2 cfg.fixedFrameId c0.frame_id c0.stamp ci
      = transformPointCloudOrEmpty (toEigen4f none) ci
    ∧ (combineClouds cfg tf1 tf2 n c0 (ci :: rest)).isSome = true := by
  constructor
  · simp [processCloud, hfix, hdiff, hnull]
  · simp [combineClouds, hn, hcfg0]

def c10c0 : Cloud := { emptyCloud with frame_id := "base" }

def c10ci : Cloud := { emptyCloud with frame_id := "lidar" }

theorem C10_nonRefNullTransformApplied_witness :
    processCloud (fun _ _ _ => none) (fun _ _ _ _ => none)
        (Config.fixedFrameId ⟨"", ""⟩) c10c0.frame_id c10c0.stamp c10ci
      = transformPointCloudOrEmpty (toEigen4f none) c10ci
    ∧ (combineClouds ⟨"", ""⟩ (fun _ _ _ => none) (fun _ _ _ _ => none)
        1 c10c0 (c10ci :: [])).isSome = true :=
  C10_nonRefNullTransformApplied ⟨"", ""⟩ (fun _ _ _ => none) (fun _ _ _ _ => none)
    1 c10c0 c10ci [] rfl rfl (by decide) rfl (by decide)

end RtabmapRos
